import Mathlib

/-!
Verification of the client-side task-filtering / pagination / dashboard
aggregation logic of the ai-todo-chatbot frontend.

The JavaScript source is shallowly embedded:
  * a backend `Task` record becomes the structure `Task`; optional fields
    (`due_date`, `created_at`) become `Option String`, and JavaScript
    truthiness of an optional string (absent, or present and empty, is
    falsy) is modelled explicitly where the code relies on it;
  * the Dashboard component's statistics (Dashboard.jsx) become pure
    functions of the task list, with the current UTC day passed as a
    parameter;
  * `getFilteredTasks` (App.jsx, sidebar variant) becomes a function of
    the active tab, the precomputed `today` / `nextWeek` date strings and
    the task list; ISO `YYYY-MM-DD` strings are compared with the
    lexicographic order on `String`, which is what the JavaScript `<=`
    on such strings computes;
  * the Login form's submit handler (Login.jsx) becomes a function from
    the form fields to either a validation error or a network request;
  * `sendMessage` (both App.jsx variants) becomes a state transition
    parameterised by the outcome of the network call.
JavaScript numbers are IEEE-754 binary64 doubles.  Every double is an
exact rational, so arithmetic on doubles is embedded as exact rational
arithmetic followed by an explicit rounding step `fl` (round the
significand to 53 bits, nearest, ties to even) after each inexact
operation; this is the precise binary64 semantics as long as all values
stay far inside the normal range, which the dashboard's values (quotients
in `[0,1]` of counts, and their products with 100) do.  `Math.round` is
`⌊x + 1/2⌋` on the exact rational value of its double argument, which is
Mathlib's `round`.
-/

namespace Todo

/-- A task as received from the backend (`GET /api/tasks`).
`status` and `priority` are kept as raw strings exactly as the frontend
receives and compares them; `due_date` and `created_at` may be absent. -/
structure Task where
  id : Nat
  title : String
  status : String
  priority : String
  due_date : Option String
  created_at : Option String
deriving DecidableEq, Repr

/-- JavaScript truthiness of an optional string field: `undefined`/`null`
and the empty string are falsy. -/
def strTruthy : Option String → Bool
  | none => false
  | some s => s ≠ ""

/-- JavaScript `String.prototype.trim`: strip whitespace from both ends,
defined structurally on the character list. -/
def jsTrim (s : String) : String :=
  String.mk (((s.toList.dropWhile Char.isWhitespace).reverse.dropWhile
    Char.isWhitespace).reverse)

/-! ## Dashboard aggregator (Dashboard.jsx) -/

/-- `const totalTasks = tasks.length` -/
def totalTasks (tasks : List Task) : Nat := tasks.length

/-- `const completedTasks = tasks.filter(t => t.status === 'completed').length` -/
def completedTasks (tasks : List Task) : Nat :=
  (tasks.filter (fun t => t.status == "completed")).length

/-- `const todoTasks = tasks.filter(t => t.status === 'todo').length` -/
def todoTasks (tasks : List Task) : Nat :=
  (tasks.filter (fun t => t.status == "todo")).length

/-- `const inProgressTasks = tasks.filter(t => t.status === 'in_progress').length` -/
def inProgressTasks (tasks : List Task) : Nat :=
  (tasks.filter (fun t => t.status == "in_progress")).length

/-- Round a rational to the nearest integer, ties to even — the rounding
IEEE-754 round-to-nearest-even applies once a value is scaled so that its
significand is the integer part. -/
def rne (q : ℚ) : ℤ :=
  if q - ⌊q⌋ < 1 / 2 then ⌊q⌋
  else if 1 / 2 < q - ⌊q⌋ then ⌊q⌋ + 1
  else if ⌊q⌋ % 2 = 0 then ⌊q⌋ else ⌊q⌋ + 1

/-- The exact rational value of the IEEE-754 binary64 double nearest to a
nonnegative rational: scale by the power of two that puts the value in
`[2^52, 2^53)`, round to the nearest integer (ties to even), and scale
back.  For values far inside the binary64 normal range — which covers
everything the dashboard computes — this is exactly the rounding
JavaScript performs after each arithmetic operation.  Negative inputs do
not occur here and are mapped to 0. -/
def fl (q : ℚ) : ℚ :=
  if q ≤ 0 then 0
  else (rne (q * 2 ^ ((52 : ℤ) - Int.log 2 q)) : ℚ) * 2 ^ (Int.log 2 q - (52 : ℤ))

/-- `const completionRate = totalTasks > 0 ? Math.round((completedTasks / totalTasks) * 100) : 0`,
computed the way JavaScript computes it: the quotient
`completedTasks / totalTasks` is rounded to the nearest binary64 double,
the product with 100 is rounded again, and `Math.round` (nearest integer,
half towards `+∞`, i.e. `⌊x + 1/2⌋` on the exact value of the double) is
applied to the result. -/
def completionRate (tasks : List Task) : ℤ :=
  if 0 < totalTasks tasks then
    round (fl (fl ((completedTasks tasks : ℚ) / (totalTasks tasks : ℚ)) * 100))
  else 0

/-- `tasks.filter(t => t.priority === 'urgent' && t.status !== 'completed').length` -/
def urgentCount (tasks : List Task) : Nat :=
  (tasks.filter (fun t => t.priority == "urgent" && t.status != "completed")).length

/-- `tasks.filter(t => t.priority === 'high' && t.status !== 'completed').length` -/
def highCount (tasks : List Task) : Nat :=
  (tasks.filter (fun t => t.priority == "high" && t.status != "completed")).length

/-- `tasks.filter(t => t.priority === 'medium' && t.status !== 'completed').length` -/
def mediumCount (tasks : List Task) : Nat :=
  (tasks.filter (fun t => t.priority == "medium" && t.status != "completed")).length

/-- `tasks.filter(t => t.priority === 'low' && t.status !== 'completed').length` -/
def lowCount (tasks : List Task) : Nat :=
  (tasks.filter (fun t => t.priority == "low" && t.status != "completed")).length

/-- `s.split('T')[0]`: the part of the string before its first `'T'` (the
whole string when it has none), i.e. the date component of an ISO
timestamp string. -/
def dateOf (s : String) : String := String.mk (s.toList.takeWhile (· ≠ 'T'))

/-- The `completedToday` count of Dashboard.jsx:
`tasks.filter(t => t.status === 'completed' && t.created_at` truthy
`&& t.created_at.split('T')[0] === today).length`,
with `today = new Date().toISOString().split('T')[0]` passed as a parameter. -/
def completedToday (today : String) (tasks : List Task) : Nat :=
  (tasks.filter (fun t =>
    t.status == "completed" &&
      (match t.created_at with
       | some c => c ≠ "" && dateOf c == today
       | none => false))).length

/-- The worked example of the specification: one urgent todo task, one
completed high task, one high todo task. -/
def specExampleTasks : List Task :=
  [ { id := 1, title := "a", status := "todo", priority := "urgent",
      due_date := none, created_at := none },
    { id := 2, title := "b", status := "completed", priority := "high",
      due_date := none, created_at := none },
    { id := 3, title := "c", status := "todo", priority := "high",
      due_date := none, created_at := none } ]

/-! ## Tab filter (App.jsx, sidebar variant, `getFilteredTasks`) -/

/-- `getFilteredTasks` of App.jsx.  `today` and `nextWeek` are the
`YYYY-MM-DD` strings the function computes from the clock
(`now.toISOString().split('T')[0]` and the same seven days later); they
are passed as parameters.  The `week` branch mirrors
`t.due_date && t.due_date <= nextWeek && t.status !== 'completed'`,
including the falsiness of an empty `due_date` string. -/
def getFilteredTasks (activeTab today nextWeek : String) (tasks : List Task) :
    List Task :=
  match activeTab with
  | "today" =>
      tasks.filter (fun t => t.due_date == some today && t.status != "completed")
  | "week" =>
      tasks.filter (fun t =>
        (match t.due_date with
         | some d => decide (d ≠ "") && decide (d ≤ nextWeek)
         | none => false) && t.status != "completed")
  | "urgent" =>
      tasks.filter (fun t => t.priority == "urgent" && t.status != "completed")
  | "high" =>
      tasks.filter (fun t => t.priority == "high" && t.status != "completed")
  | "completed" =>
      tasks.filter (fun t => t.status == "completed")
  | _ => tasks

/-- The per-tab predicate of the specification (§4.2), branch by branch. -/
def tabPred (activeTab today nextWeek : String) : Task → Bool :=
  match activeTab with
  | "today" => fun t => t.due_date == some today && t.status != "completed"
  | "week" => fun t =>
      (match t.due_date with
       | some d => decide (d ≠ "") && decide (d ≤ nextWeek)
       | none => false) && t.status != "completed"
  | "urgent" => fun t => t.priority == "urgent" && t.status != "completed"
  | "high" => fun t => t.priority == "high" && t.status != "completed"
  | "completed" => fun t => t.status == "completed"
  | _ => fun _ => true

/-- On each of the six recognized tabs, the filter is `List.filter` of the
tab's predicate (on `all` the predicate is constantly true). -/
theorem getFilteredTasks_eq_filter (tab today nextWeek : String)
    (tasks : List Task)
    (h : tab ∈ ["all", "today", "week", "urgent", "high", "completed"]) :
    getFilteredTasks tab today nextWeek tasks
      = tasks.filter (tabPred tab today nextWeek) := by
  simp only [List.mem_cons, List.not_mem_nil, or_false] at h
  rcases h with rfl | rfl | rfl | rfl | rfl | rfl <;>
    simp [getFilteredTasks, tabPred]

/-- C1: for every recognized tab, the tab filter returns an ordered
subsequence of the input (`Sublist` preserves relative order); every task
in the output satisfies the tab's predicate; and every input task
satisfying the predicate appears in the output with its full input
multiplicity (so exactly once when the input holds it once). -/
theorem tabFilter_subsequence_C1 (tab today nextWeek : String)
    (tasks : List Task)
    (h : tab ∈ ["all", "today", "week", "urgent", "high", "completed"]) :
    (getFilteredTasks tab today nextWeek tasks).Sublist tasks
    ∧ (∀ t ∈ getFilteredTasks tab today nextWeek tasks,
        tabPred tab today nextWeek t = true)
    ∧ (∀ t ∈ tasks, tabPred tab today nextWeek t = true →
        (getFilteredTasks tab today nextWeek tasks).count t = tasks.count t) := by
  rw [getFilteredTasks_eq_filter tab today nextWeek tasks h]
  refine ⟨List.filter_sublist tasks, ?_, ?_⟩
  · intro t ht
    exact List.of_mem_filter ht
  · intro t _ hp
    exact List.count_filter hp

/-- Witness for C1: the `completed` tab on the specification's example
list. -/
theorem tabFilter_subsequence_C1_witness :
    ("completed" ∈ ["all", "today", "week", "urgent", "high", "completed"])
    ∧ ((getFilteredTasks "completed" "2025-01-01" "2025-01-08" specExampleTasks).Sublist
          specExampleTasks
      ∧ (∀ t ∈ getFilteredTasks "completed" "2025-01-01" "2025-01-08" specExampleTasks,
          tabPred "completed" "2025-01-01" "2025-01-08" t = true)
      ∧ (∀ t ∈ specExampleTasks,
          tabPred "completed" "2025-01-01" "2025-01-08" t = true →
          (getFilteredTasks "completed" "2025-01-01" "2025-01-08" specExampleTasks).count t
            = specExampleTasks.count t)) :=
  ⟨by decide,
   tabFilter_subsequence_C1 "completed" "2025-01-01" "2025-01-08" specExampleTasks
     (by decide)⟩

/-- C4: a task passes the `week` tab exactly when its due date is present,
at most `nextWeek` (the current date plus 7 days) and its status is not
`completed`.  The characterization has no lower bound on the due date, so
overdue non-completed tasks with a due date also pass.  The hypothesis
excludes tasks carrying an empty-string due date, which the data model
does not produce (a due date is an ISO `YYYY-MM-DD` string or absent). -/
theorem weekTab_characterization_C4 (today nextWeek : String)
    (tasks : List Task) (t : Task)
    (hwf : ∀ u ∈ tasks, u.due_date ≠ some "") :
    t ∈ getFilteredTasks "week" today nextWeek tasks
      ↔ t ∈ tasks
        ∧ (∃ d, t.due_date = some d ∧ d ≤ nextWeek)
        ∧ t.status ≠ "completed" := by
  show t ∈ tasks.filter _ ↔ _
  rw [List.mem_filter]
  constructor
  · rintro ⟨hmem, hp⟩
    refine ⟨hmem, ?_, ?_⟩
    · rcases hd : t.due_date with _ | d
      · rw [hd] at hp
        simp at hp
      · rw [hd] at hp
        simp only [Bool.and_eq_true, decide_eq_true_eq] at hp
        exact ⟨d, rfl, hp.1.2⟩
    · rcases hd : t.due_date with _ | d <;> rw [hd] at hp <;>
        simp only [Bool.and_eq_true, bne_iff_ne, ne_eq] at hp
      · exact absurd hp.1 (by simp)
      · exact hp.2
  · rintro ⟨hmem, ⟨d, hd, hle⟩, hst⟩
    refine ⟨hmem, ?_⟩
    have hne : d ≠ "" := by
      intro hcontra
      exact hwf t hmem (by rw [hd, hcontra])
    rw [hd]
    simp only [Bool.and_eq_true, decide_eq_true_eq, bne_iff_ne, ne_eq]
    exact ⟨⟨hne, hle⟩, hst⟩

/-- Witness for C4: a task that is overdue relative to `today` but has a
due date and is not completed is in the `week` tab's output. -/
theorem weekTab_characterization_C4_witness :
    (∀ u ∈ [({ id := 9, title := "w", status := "todo", priority := "low",
                due_date := some "2024-12-01", created_at := none } : Task)],
        u.due_date ≠ some "")
    ∧ (({ id := 9, title := "w", status := "todo", priority := "low",
          due_date := some "2024-12-01", created_at := none } : Task)
          ∈ getFilteredTasks "week" "2025-01-01" "2025-01-08"
              [{ id := 9, title := "w", status := "todo", priority := "low",
                 due_date := some "2024-12-01", created_at := none }]
        ↔ ({ id := 9, title := "w", status := "todo", priority := "low",
             due_date := some "2024-12-01", created_at := none } : Task)
            ∈ [({ id := 9, title := "w", status := "todo", priority := "low",
                  due_date := some "2024-12-01", created_at := none } : Task)]
          ∧ (∃ d, (({ id := 9, title := "w", status := "todo", priority := "low",
                      due_date := some "2024-12-01", created_at := none } : Task)).due_date
                    = some d ∧ d ≤ "2025-01-08")
          ∧ (({ id := 9, title := "w", status := "todo", priority := "low",
                due_date := some "2024-12-01", created_at := none } : Task)).status
              ≠ "completed") :=
  ⟨by decide,
   weekTab_characterization_C4 "2025-01-01" "2025-01-08"
     [{ id := 9, title := "w", status := "todo", priority := "low",
        due_date := some "2024-12-01", created_at := none }]
     { id := 9, title := "w", status := "todo", priority := "low",
       due_date := some "2024-12-01", created_at := none }
     (by decide)⟩

/-- C10: on the `today`, `week`, `urgent` and `high` tabs no completed
task is ever returned, and every completed task of the list is returned
both by the `all` tab and by the `completed` tab. -/
theorem completedHidden_C10 (tab today nextWeek : String) (tasks : List Task)
    (h : tab ∈ ["today", "week", "urgent", "high"]) :
    (∀ t ∈ getFilteredTasks tab today nextWeek tasks, t.status ≠ "completed")
    ∧ (∀ t ∈ tasks, t.status = "completed" →
        t ∈ getFilteredTasks "all" today nextWeek tasks
        ∧ t ∈ getFilteredTasks "completed" today nextWeek tasks) := by
  constructor
  · simp only [List.mem_cons, List.not_mem_nil, or_false] at h
    rcases h with rfl | rfl | rfl | rfl <;>
    · intro t ht
      have hp := List.of_mem_filter ht
      simp only [Bool.and_eq_true, bne_iff_ne, ne_eq] at hp
      exact hp.2
  · intro t hmem hst
    constructor
    · exact hmem
    · show t ∈ tasks.filter _
      rw [List.mem_filter]
      exact ⟨hmem, by simp [hst]⟩

/-- Witness for C10: the `high` tab on the specification's example list
(whose second task is completed and of high priority). -/
theorem completedHidden_C10_witness :
    ("high" ∈ ["today", "week", "urgent", "high"])
    ∧ ((∀ t ∈ getFilteredTasks "high" "2025-01-01" "2025-01-08" specExampleTasks,
          t.status ≠ "completed")
      ∧ (∀ t ∈ specExampleTasks, t.status = "completed" →
          t ∈ getFilteredTasks "all" "2025-01-01" "2025-01-08" specExampleTasks
          ∧ t ∈ getFilteredTasks "completed" "2025-01-01" "2025-01-08" specExampleTasks)) :=
  ⟨by decide,
   completedHidden_C10 "high" "2025-01-01" "2025-01-08" specExampleTasks (by decide)⟩

/-- Nearest-integer rounding differs from its argument by at most 1/2. -/
theorem abs_rne_sub_le (q : ℚ) : |(rne q : ℚ) - q| ≤ 1 / 2 := by
  have h0 : ((⌊q⌋ : ℤ) : ℚ) ≤ q := Int.floor_le q
  have h1 : q < ((⌊q⌋ : ℤ) : ℚ) + 1 := Int.lt_floor_add_one q
  unfold rne
  split_ifs with hlt hgt hev
  · rw [abs_le]
    constructor <;> linarith
  · rw [abs_le]
    push_cast
    constructor <;> linarith
  · have heq : q - ⌊q⌋ = 1 / 2 := le_antisymm (not_lt.mp hgt) (not_lt.mp hlt)
    rw [abs_le]
    constructor <;> linarith
  · have heq : q - ⌊q⌋ = 1 / 2 := le_antisymm (not_lt.mp hgt) (not_lt.mp hlt)
    rw [abs_le]
    push_cast
    constructor <;> linarith

/-- Nearest-integer rounding of a nonnegative rational is nonnegative. -/
theorem rne_nonneg (q : ℚ) (h : 0 ≤ q) : 0 ≤ rne q := by
  have h0 : 0 ≤ ⌊q⌋ := Int.floor_nonneg.mpr h
  unfold rne
  split_ifs <;> omega

/-- Binary64 rounding of a nonnegative rational is nonnegative. -/
theorem fl_nonneg (q : ℚ) : 0 ≤ fl q := by
  unfold fl
  split_ifs with h
  · exact le_refl 0
  · have hq0 : 0 < q := not_le.mp h
    apply mul_nonneg
    · exact_mod_cast rne_nonneg _ (mul_nonneg hq0.le (by positivity))
    · positivity

/-- Binary64 rounding of a nonnegative rational has error at most half an
ulp of a 53-bit significand, hence at most `q / 2^53`. -/
theorem abs_fl_sub_le (q : ℚ) (hq : 0 ≤ q) : |fl q - q| ≤ q / 2 ^ 53 := by
  unfold fl
  split_ifs with h
  · have hq0 : q = 0 := le_antisymm h hq
    simp [hq0]
  · have hq0 : 0 < q := not_le.mp h
    set e := Int.log 2 q with he
    have hpow : (0 : ℚ) < (2 : ℚ) ^ (e - 52) := by positivity
    have hkey : (2 : ℚ) ^ ((52 : ℤ) - e) * (2 : ℚ) ^ (e - 52) = 1 := by
      rw [← zpow_add₀ (by norm_num : (2 : ℚ) ≠ 0)]
      norm_num
    have hql : (2 : ℚ) ^ e ≤ q := by
      have := Int.zpow_log_le_self (b := 2) (by norm_num) hq0
      rw [he]
      exact_mod_cast this
    have hm : q * 2 ^ ((52 : ℤ) - e) * 2 ^ (e - 52) = q := by
      rw [mul_assoc, hkey, mul_one]
    have hstep : (rne (q * 2 ^ ((52 : ℤ) - e)) : ℚ) * 2 ^ (e - 52) - q
        = ((rne (q * 2 ^ ((52 : ℤ) - e)) : ℚ) - q * 2 ^ ((52 : ℤ) - e))
            * 2 ^ (e - 52) := by
      rw [sub_mul, hm]
    rw [hstep, abs_mul, abs_of_pos hpow]
    calc |(rne (q * 2 ^ ((52 : ℤ) - e)) : ℚ) - q * 2 ^ ((52 : ℤ) - e)|
          * (2 : ℚ) ^ (e - 52)
        ≤ (1 / 2) * (2 : ℚ) ^ (e - 52) :=
          mul_le_mul_of_nonneg_right (abs_rne_sub_le _) hpow.le
      _ = (2 : ℚ) ^ (e - 53) := by
          rw [show (1 : ℚ) / 2 = (2 : ℚ) ^ (-1 : ℤ) by norm_num,
            ← zpow_add₀ (by norm_num : (2 : ℚ) ≠ 0)]
          congr 1
          omega
      _ = (2 : ℚ) ^ e * (2 : ℚ) ^ (-(53) : ℤ) := by
          rw [← zpow_add₀ (by norm_num : (2 : ℚ) ≠ 0)]
          congr 1
      _ ≤ q * (2 : ℚ) ^ (-(53) : ℤ) :=
          mul_le_mul_of_nonneg_right hql (by positivity)
      _ = q / 2 ^ 53 := by
          rw [zpow_neg, div_eq_mul_inv]
          norm_num

/-- Two rationals at distance at most 1 round to integers at distance at
most 1. -/
theorem abs_round_sub_round_le (a b : ℚ) (h : |a - b| ≤ 1) :
    |round a - round b| ≤ 1 := by
  rw [abs_le] at h
  have f1 : ⌊b + 1 / 2⌋ ≤ ⌊a + 1 / 2⌋ + 1 := by
    calc ⌊b + 1 / 2⌋ ≤ ⌊a + 1 / 2 + 1⌋ := Int.floor_mono (by linarith [h.1, h.2])
      _ = ⌊a + 1 / 2⌋ + 1 := Int.floor_add_one _
  have f2 : ⌊a + 1 / 2⌋ ≤ ⌊b + 1 / 2⌋ + 1 := by
    calc ⌊a + 1 / 2⌋ ≤ ⌊b + 1 / 2 + 1⌋ := Int.floor_mono (by linarith [h.1, h.2])
      _ = ⌊b + 1 / 2⌋ + 1 := Int.floor_add_one _
  rw [round_eq, round_eq, abs_le]
  omega

/-- C2 (amended): the completion rate the dashboard displays is
`Math.round` of the float64 evaluation of `(completed/total) * 100`; it
equals 0 when the list has no tasks, and it always lies within 1 of the
exact `round (100 * completed / total)` — but, as
`completionRate_round_C2_counterexample` shows, it is not always equal to
it. -/
theorem completionRate_round_C2 (tasks : List Task) :
    (totalTasks tasks = 0 → completionRate tasks = 0)
    ∧ (0 < totalTasks tasks →
        |completionRate tasks
          - round ((100 * (completedTasks tasks : ℚ)) / (totalTasks tasks : ℚ))|
          ≤ 1) := by
  constructor
  · intro h
    unfold completionRate
    rw [h]
    simp
  · intro ht
    unfold completionRate
    rw [if_pos ht]
    set c := completedTasks tasks with hc
    set t := totalTasks tasks with htt
    have htQ : (0 : ℚ) < (t : ℚ) := by exact_mod_cast ht
    set x : ℚ := (c : ℚ) / (t : ℚ) with hx
    have hx0 : 0 ≤ x := by positivity
    have hcle : c ≤ t := List.length_filter_le _ _
    have hx1 : x ≤ 1 := by
      rw [hx, div_le_one htQ]
      exact_mod_cast hcle
    have h1 : |fl x - x| ≤ x / 2 ^ 53 := abs_fl_sub_le x hx0
    have h1b : |fl x - x| ≤ 1 / 2 ^ 53 :=
      h1.trans ((div_le_div_iff_of_pos_right (by positivity)).mpr hx1)
    have hfl0 : 0 ≤ fl x := fl_nonneg x
    have hflub : fl x ≤ x + 1 / 2 ^ 53 := by
      have := (abs_le.mp h1b).2
      linarith
    set y : ℚ := fl x * 100 with hy
    have hy0 : 0 ≤ y := by positivity
    have hyb : y ≤ 101 := by
      have h100 := mul_le_mul_of_nonneg_right hflub (by norm_num : (0 : ℚ) ≤ 100)
      rw [hy]
      nlinarith
    have h2 : |fl y - y| ≤ y / 2 ^ 53 := abs_fl_sub_le y hy0
    have h2b : |fl y - y| ≤ 101 / 2 ^ 53 :=
      h2.trans ((div_le_div_iff_of_pos_right (by positivity)).mpr hyb)
    have hyx : |y - 100 * x| ≤ 100 / 2 ^ 53 := by
      have hrw : y - 100 * x = (fl x - x) * 100 := by
        rw [hy]
        ring
      rw [hrw, abs_mul, abs_of_nonneg (by norm_num : (0 : ℚ) ≤ (100 : ℚ))]
      have := mul_le_mul_of_nonneg_right h1b (by norm_num : (0 : ℚ) ≤ 100)
      linarith
    have hchain : |fl y - 100 * x| ≤ 1 := by
      calc |fl y - 100 * x| ≤ |fl y - y| + |y - 100 * x| := abs_sub_le _ _ _
        _ ≤ 101 / 2 ^ 53 + 100 / 2 ^ 53 := add_le_add h2b hyx
        _ ≤ 1 := by norm_num
    have hdiv : (100 * (c : ℚ)) / (t : ℚ) = 100 * x := by
      rw [hx, mul_div_assoc]
    rw [hdiv]
    exact abs_round_sub_round_le (fl y) (100 * x) hchain

/-- A 40-task list of which 23 are completed: the smallest shape of the
float64-versus-exact divergence the dashboard can display. -/
def ex40 : List Task :=
  List.replicate 23
    { id := 1, title := "d", status := "completed", priority := "low",
      due_date := none, created_at := none }
  ++ List.replicate 17
    { id := 2, title := "p", status := "todo", priority := "low",
      due_date := none, created_at := none }

/-- `Int.log 2` is determined by the enclosing power-of-two interval. -/
theorem int_log2_eq {q : ℚ} {e : ℤ} (hq : 0 < q)
    (h1 : (2 : ℚ) ^ e ≤ q) (h2 : q < (2 : ℚ) ^ (e + 1)) :
    Int.log 2 q = e := by
  have hle : e ≤ Int.log 2 q := by
    rw [← Int.zpow_le_iff_le_log one_lt_two hq]
    exact_mod_cast h1
  have hlt : Int.log 2 q < e + 1 := by
    rw [← Int.lt_zpow_iff_log_lt one_lt_two hq]
    exact_mod_cast h2
  omega

/-- Evaluation rule for `rne` when the value rounds down. -/
theorem rne_eq_of_lt {q : ℚ} {n : ℤ} (h1 : (n : ℚ) ≤ q)
    (h2 : q - (n : ℚ) < 1 / 2) : rne q = n := by
  have hf : ⌊q⌋ = n := Int.floor_eq_iff.mpr ⟨h1, by linarith⟩
  unfold rne
  rw [hf, if_pos h2]

/-- Evaluation rule for `fl` from the exponent interval and the rounded
significand. -/
theorem fl_eq_of {q : ℚ} (e n : ℤ) (hq : 0 < q)
    (h1 : (2 : ℚ) ^ e ≤ q) (h2 : q < (2 : ℚ) ^ (e + 1))
    (h3 : (n : ℚ) ≤ q * (2 : ℚ) ^ ((52 : ℤ) - e))
    (h4 : q * (2 : ℚ) ^ ((52 : ℤ) - e) - (n : ℚ) < 1 / 2) :
    fl q = (n : ℚ) * (2 : ℚ) ^ (e - (52 : ℤ)) := by
  unfold fl
  rw [if_neg (not_le.mpr hq), int_log2_eq hq h1 h2, rne_eq_of_lt h3 h4]

/-- Counterexample to C2 as stated: at 23 completed of 40 total tasks the
program (float64 arithmetic) displays 57, while the exact
`round (100 * 23 / 40) = round 57.5` is 58. -/
theorem completionRate_round_C2_counterexample :
    completionRate ex40 = 57
    ∧ round ((100 * (completedTasks ex40 : ℚ)) / (totalTasks ex40 : ℚ)) = 58 := by
  have hc : completedTasks ex40 = 23 := by decide
  have ht : totalTasks ex40 = 40 := by decide
  constructor
  · unfold completionRate
    rw [hc, ht, if_pos (by norm_num)]
    have hcast : ((23 : ℕ) : ℚ) / ((40 : ℕ) : ℚ) = 23 / 40 := by norm_num
    rw [hcast]
    have hfl1 : fl ((23 : ℚ) / 40)
        = (5179139571476070 : ℚ) * (2 : ℚ) ^ ((-1 : ℤ) - (52 : ℤ)) := by
      apply fl_eq_of (-1) 5179139571476070 (by norm_num)
      · norm_num
      · norm_num
      · norm_num
      · norm_num
    have harg : fl ((23 : ℚ) / 40) * 100
        = (517913957147607000 : ℚ) * (2 : ℚ) ^ ((-53) : ℤ) := by
      rw [hfl1, show ((-1 : ℤ) - (52 : ℤ)) = (-53 : ℤ) by norm_num]
      ring
    rw [harg]
    have hfl2 : fl ((517913957147607000 : ℚ) * (2 : ℚ) ^ ((-53) : ℤ))
        = (8092405580431359 : ℚ) * (2 : ℚ) ^ ((5 : ℤ) - (52 : ℤ)) := by
      apply fl_eq_of 5 8092405580431359 (by norm_num)
      · norm_num
      · norm_num
      · norm_num
      · norm_num
    rw [hfl2, round_eq, Int.floor_eq_iff]
    constructor <;> norm_num
  · rw [hc, ht, round_eq, Int.floor_eq_iff]
    constructor <;> norm_num

/-- C5: the dashboard's `completedToday` equals the number of tasks whose
status is `completed` and whose `created_at` date component equals the
current day; a task with an absent `created_at` is never counted.  The
hypothesis `today ≠ ""` holds for the real argument, which is always a
`YYYY-MM-DD` string produced by `toISOString`. -/
theorem completedToday_count_C5 (today : String) (tasks : List Task)
    (h : today ≠ "") :
    completedToday today tasks
      = tasks.countP (fun t =>
          t.status == "completed" &&
            (match t.created_at with
             | some c => dateOf c == today
             | none => false)) := by
  rw [List.countP_eq_length_filter, completedToday]
  congr 1
  apply List.filter_congr
  intro t _
  rcases hc : t.created_at with _ | c
  · rfl
  · by_cases hce : c = ""
    · subst hce
      have hd0 : dateOf "" = "" := by decide
      have hd : ("" == today) = false := by
        rw [beq_eq_false_iff_ne]
        exact fun hx => h hx.symm
      simp [hd0, hd]
    · simp [hce]

/-- Witness for C5: a list with one task completed today (by creation
date), one completed on another day and one not completed. -/
theorem completedToday_count_C5_witness :
    ("2025-01-01" ≠ "")
    ∧ completedToday "2025-01-01"
        [ { id := 1, title := "a", status := "completed", priority := "low",
            due_date := none, created_at := some "2025-01-01T08:00:00" },
          { id := 2, title := "b", status := "completed", priority := "low",
            due_date := none, created_at := some "2024-12-31T23:00:00" },
          { id := 3, title := "c", status := "todo", priority := "low",
            due_date := none, created_at := some "2025-01-01T08:00:00" } ]
        = List.countP (fun (t : Task) =>
            t.status == "completed" &&
              (match t.created_at with
               | some c => dateOf c == "2025-01-01"
               | none => false))
          ([ { id := 1, title := "a", status := "completed", priority := "low",
               due_date := none, created_at := some "2025-01-01T08:00:00" },
             { id := 2, title := "b", status := "completed", priority := "low",
               due_date := none, created_at := some "2024-12-31T23:00:00" },
             { id := 3, title := "c", status := "todo", priority := "low",
               due_date := none, created_at := some "2025-01-01T08:00:00" } ] : List Task) :=
  ⟨by decide,
   completedToday_count_C5 "2025-01-01"
     [ { id := 1, title := "a", status := "completed", priority := "low",
         due_date := none, created_at := some "2025-01-01T08:00:00" },
       { id := 2, title := "b", status := "completed", priority := "low",
         due_date := none, created_at := some "2024-12-31T23:00:00" },
       { id := 3, title := "c", status := "todo", priority := "low",
         due_date := none, created_at := some "2025-01-01T08:00:00" } ]
     (by decide)⟩

/-- C6: each per-priority dashboard count equals the number of tasks with
that priority whose status is not `completed`, and prepending a completed
task to the list leaves all four counts unchanged (a completed task
contributes to no priority count). -/
theorem priorityCounts_C6 (tasks : List Task) :
    (urgentCount tasks
        = tasks.countP (fun t => t.priority == "urgent" && t.status != "completed")
      ∧ highCount tasks
        = tasks.countP (fun t => t.priority == "high" && t.status != "completed")
      ∧ mediumCount tasks
        = tasks.countP (fun t => t.priority == "medium" && t.status != "completed")
      ∧ lowCount tasks
        = tasks.countP (fun t => t.priority == "low" && t.status != "completed"))
    ∧ (∀ t : Task, t.status = "completed" →
        urgentCount (t :: tasks) = urgentCount tasks
        ∧ highCount (t :: tasks) = highCount tasks
        ∧ mediumCount (t :: tasks) = mediumCount tasks
        ∧ lowCount (t :: tasks) = lowCount tasks) := by
  constructor
  · exact ⟨(List.countP_eq_length_filter _ _).symm,
      (List.countP_eq_length_filter _ _).symm,
      (List.countP_eq_length_filter _ _).symm,
      (List.countP_eq_length_filter _ _).symm⟩
  · intro t hst
    refine ⟨?_, ?_, ?_, ?_⟩ <;>
      simp [urgentCount, highCount, mediumCount, lowCount, List.filter_cons, hst]

/-- Witness for C6 on the specification's example list: `urgentCount = 1`,
`highCount = 1` (the completed high task is not counted), and prepending a
completed task changes nothing. -/
theorem priorityCounts_C6_witness :
    (urgentCount specExampleTasks
        = specExampleTasks.countP
            (fun t => t.priority == "urgent" && t.status != "completed"))
    ∧ highCount
        ({ id := 4, title := "d", status := "completed", priority := "high",
           due_date := none, created_at := none } :: specExampleTasks)
        = highCount specExampleTasks :=
  ⟨(priorityCounts_C6 specExampleTasks).1.1,
   ((priorityCounts_C6 specExampleTasks).2
      { id := 4, title := "d", status := "completed", priority := "high",
        due_date := none, created_at := none } rfl).2.1⟩

/-- Witness for C2 at the empty list (zero case) and at the
specification's example list (bounded-difference case). -/
theorem completionRate_round_C2_witness :
    (totalTasks ([] : List Task) = 0 ∧ completionRate [] = 0)
    ∧ (0 < totalTasks specExampleTasks
      ∧ |completionRate specExampleTasks
          - round ((100 * (completedTasks specExampleTasks : ℚ))
              / (totalTasks specExampleTasks : ℚ))| ≤ 1) :=
  ⟨⟨rfl, (completionRate_round_C2 []).1 rfl⟩,
   ⟨by decide, (completionRate_round_C2 specExampleTasks).2 (by decide)⟩⟩

/-! ## Login form validation (Login.jsx, `handleSubmit`) -/

/-- The email regular expression of Login.jsx,
`/^[^\s@]+@[^\s@]+\.[^\s@]+$/`: a nonempty run of characters that are
neither whitespace nor `@`, one `@`, then a nonempty run of the same
class, a literal dot and a final nonempty run.  Splitting the character
list at the (necessarily unique) `@` and asking for a dot strictly inside
the tail is exactly the set of strings this anchored pattern accepts. -/
def isValidEmail (email : String) : Bool :=
  let cs := email.toList
  let a := cs.takeWhile (· ≠ '@')
  match cs.dropWhile (· ≠ '@') with
  | [] => false
  | _ :: rest =>
      !a.isEmpty && a.all (fun c => !c.isWhitespace) &&
      !rest.isEmpty && rest.all (fun c => !c.isWhitespace && c ≠ '@') &&
      (List.range rest.length).any
        (fun i => rest.getD i ' ' == '.' && decide (1 ≤ i) && decide (i + 1 < rest.length))

/-- Outcome of the submit handler: either an inline validation error (the
handler set the error state and returned before any network call), or the
point where the first network request is issued. -/
inductive SubmitStep where
  | validationError (msg : String)
  | networkRequest
deriving DecidableEq, Repr

/-- The validation chain of `handleSubmit` in Login.jsx, in source order.
The email checks only run in signup mode; `!formData.password` is the
emptiness test (JavaScript string falsiness). -/
def handleSubmit (isSignup : Bool) (username email password : String) :
    SubmitStep :=
  if (jsTrim username) == "" then .validationError "Username is required"
  else if username.length < 3 then
    .validationError "Username must be at least 3 characters"
  else if isSignup && (jsTrim email) == "" then .validationError "Email is required"
  else if isSignup && !isValidEmail email then
    .validationError "Please enter a valid email address"
  else if password == "" then .validationError "Password is required"
  else if password.length < 4 then
    .validationError "Password must be at least 4 characters"
  else .networkRequest

/-- C8: whenever the trimmed username is empty, the username is shorter
than 3 characters, the password is empty or shorter than 4 characters, or
in signup mode the email is empty or invalid, the submit handler stops at
an inline validation error and never reaches the network request. -/
theorem loginValidation_C8 (isSignup : Bool) (username email password : String)
    (h : (jsTrim username) = "" ∨ username.length < 3
      ∨ password = "" ∨ password.length < 4
      ∨ (isSignup = true ∧ ((jsTrim email) = "" ∨ isValidEmail email = false))) :
    ∃ msg, handleSubmit isSignup username email password
      = SubmitStep.validationError msg := by
  unfold handleSubmit
  split
  · exact ⟨_, rfl⟩
  · split
    · exact ⟨_, rfl⟩
    · split
      · exact ⟨_, rfl⟩
      · split
        · exact ⟨_, rfl⟩
        · split
          · exact ⟨_, rfl⟩
          · split
            · exact ⟨_, rfl⟩
            · exfalso
              rename_i h1 h2 h3 h4 h5 h6
              rcases h with h | h | h | h | ⟨hs, h | h⟩ <;> simp_all

/-- Witness for C8: signup with a two-character username. -/
theorem loginValidation_C8_witness :
    ((jsTrim "ab") = "" ∨ "ab".length < 3 ∨ "pw" = "" ∨ "pw".length < 4
      ∨ (true = true ∧ ((jsTrim "x") = "" ∨ isValidEmail "x" = false)))
    ∧ ∃ msg, handleSubmit true "ab" "x" "pw" = SubmitStep.validationError msg :=
  ⟨Or.inr (Or.inl (by decide)),
   loginValidation_C8 true "ab" "x" "pw" (Or.inr (Or.inl (by decide)))⟩

/-! ## Chat action orchestration (App.jsx, `sendMessage`, both variants) -/

/-- A chat transcript entry. -/
structure ChatMsg where
  role : String
  content : String
deriving DecidableEq, Repr

/-- The app state touched by `sendMessage`: transcript, in-memory task
list, input box and loading flag. -/
structure AppState where
  messages : List ChatMsg
  tasks : List Task
  input : String
  loading : Bool
deriving DecidableEq, Repr

/-- Outcome of the awaited `POST /api/chat` round trip: on success the
assistant's reply together with the task list the follow-up
`GET /api/tasks` re-fetch returns; on failure the thrown error. -/
inductive ChatOutcome where
  | ok (response : String) (fetched : List Task)
  | failed
deriving DecidableEq, Repr

/-- `sendMessage` of the dashboard variant of App.jsx: guard
`if (!input.trim() || loading) return`, append the trimmed user message,
clear the input, then on success append the assistant reply and re-fetch
tasks, and on error append the fixed message
`'❌ Error: Could not process request.'`, touching no task state. -/
def sendMessageDash (st : AppState) (outcome : ChatOutcome) : AppState :=
  if (jsTrim st.input) == "" || st.loading then st
  else
    let afterUser : AppState :=
      { st with messages := st.messages ++ [⟨"user", (jsTrim st.input)⟩],
                input := "", loading := true }
    match outcome with
    | .ok response fetched =>
        { afterUser with
            messages := afterUser.messages ++ [⟨"assistant", response⟩],
            tasks := fetched, loading := false }
    | .failed =>
        { afterUser with
            messages := afterUser.messages
              ++ [⟨"assistant", "❌ Error: Could not process request."⟩],
            loading := false }

/-- `sendMessage` of the sidebar variant of App.jsx: guard
`if (!input.trim()) return`, append the raw user message, clear the
input, then on success append the assistant reply and re-fetch tasks, and
on error append the fixed message `'❌ Sorry, something went wrong.'`,
touching no task state. -/
def sendMessageSidebar (st : AppState) (outcome : ChatOutcome) : AppState :=
  if (jsTrim st.input) == "" then st
  else
    let afterUser : AppState :=
      { st with messages := st.messages ++ [⟨"user", st.input⟩],
                input := "", loading := true }
    match outcome with
    | .ok response fetched =>
        { afterUser with
            messages := afterUser.messages ++ [⟨"assistant", response⟩],
            tasks := fetched, loading := false }
    | .failed =>
        { afterUser with
            messages := afterUser.messages
              ++ [⟨"assistant", "❌ Sorry, something went wrong."⟩],
            loading := false }

/-- C9: when the chat network call fails, each `sendMessage` variant
appends exactly one fixed assistant error message after the user's
message and leaves the in-memory task list exactly as it was (there is no
optimistic update to roll back). -/
theorem chatFailure_C9 (st : AppState)
    (hin : (jsTrim st.input) ≠ "") (hld : st.loading = false) :
    ((sendMessageDash st ChatOutcome.failed).tasks = st.tasks
      ∧ (sendMessageDash st ChatOutcome.failed).messages
          = st.messages
            ++ [⟨"user", (jsTrim st.input)⟩,
                ⟨"assistant", "❌ Error: Could not process request."⟩])
    ∧ ((sendMessageSidebar st ChatOutcome.failed).tasks = st.tasks
      ∧ (sendMessageSidebar st ChatOutcome.failed).messages
          = st.messages
            ++ [⟨"user", st.input⟩,
                ⟨"assistant", "❌ Sorry, something went wrong."⟩]) := by
  unfold sendMessageDash sendMessageSidebar
  rw [if_neg, if_neg]
  · constructor <;> constructor <;> simp
  · simpa using hin
  · simp [hin, hld]

/-- Witness for C9 at a concrete pre-call state. -/
theorem chatFailure_C9_witness :
    ((jsTrim "add milk") ≠ "" ∧ (false : Bool) = false)
    ∧ (((sendMessageDash
          { messages := [⟨"assistant", "hi"⟩], tasks := specExampleTasks,
            input := "add milk", loading := false } ChatOutcome.failed).tasks
            = specExampleTasks
        ∧ (sendMessageDash
            { messages := [⟨"assistant", "hi"⟩], tasks := specExampleTasks,
              input := "add milk", loading := false } ChatOutcome.failed).messages
            = [⟨"assistant", "hi"⟩]
              ++ [⟨"user", (jsTrim "add milk")⟩,
                  ⟨"assistant", "❌ Error: Could not process request."⟩])
      ∧ ((sendMessageSidebar
            { messages := [⟨"assistant", "hi"⟩], tasks := specExampleTasks,
              input := "add milk", loading := false } ChatOutcome.failed).tasks
            = specExampleTasks
        ∧ (sendMessageSidebar
            { messages := [⟨"assistant", "hi"⟩], tasks := specExampleTasks,
              input := "add milk", loading := false } ChatOutcome.failed).messages
            = [⟨"assistant", "hi"⟩]
              ++ [⟨"user", "add milk"⟩,
                  ⟨"assistant", "❌ Sorry, something went wrong."⟩])) :=
  ⟨⟨by decide, rfl⟩,
   chatFailure_C9
     { messages := [⟨"assistant", "hi"⟩], tasks := specExampleTasks,
       input := "add milk", loading := false }
     (by decide) rfl⟩

/-! ## Paginator (spec §4.3; the paginated frontend variant is not among
the provided sources, so these definitions are modelled from the
specification's description) -/

/-- Modelled from the spec: the paginator's total page count, "total page
count = ceiling(filtered length / page size), minimum 1", computed with
the usual natural-number ceiling division. -/
def totalPages (n pageSize : Nat) : Nat := max 1 ((n + pageSize - 1) / pageSize)

/-- Modelled from the spec: "the sub-sequence for the requested page" of
a fixed-size pagination with 1-indexed pages — the elements from position
`(page-1)*pageSize` (inclusive) to `page*pageSize` (exclusive). -/
def pageSlice (pageSize page : Nat) (xs : List Task) : List Task :=
  (xs.drop ((page - 1) * pageSize)).take pageSize

/-- Natural-number ceiling division agrees with the rational ceiling. -/
theorem ceilDiv_eq_natCeil (n p : Nat) (hp : 0 < p) :
    (n + p - 1) / p = ⌈(n : ℚ) / (p : ℚ)⌉₊ := by
  apply le_antisymm
  · have hnp : (n : ℚ) ≤ (⌈(n : ℚ) / (p : ℚ)⌉₊ : ℚ) * p := by
      have h1 := Nat.le_ceil ((n : ℚ) / (p : ℚ))
      rwa [div_le_iff₀ (by exact_mod_cast hp)] at h1
    have hnat : n ≤ ⌈(n : ℚ) / (p : ℚ)⌉₊ * p := by exact_mod_cast hnp
    have h2 : n + p - 1 ≤ ⌈(n : ℚ) / (p : ℚ)⌉₊ * p + (p - 1) := by omega
    calc (n + p - 1) / p ≤ (⌈(n : ℚ) / (p : ℚ)⌉₊ * p + (p - 1)) / p :=
          Nat.div_le_div_right h2
      _ = ⌈(n : ℚ) / (p : ℚ)⌉₊ + (p - 1) / p := by
          rw [mul_comm, Nat.mul_add_div hp]
      _ = ⌈(n : ℚ) / (p : ℚ)⌉₊ := by
          rw [Nat.div_eq_of_lt (by omega), Nat.add_zero]
  · rw [Nat.ceil_le, div_le_iff₀ (by exact_mod_cast hp)]
    have h3 : n ≤ (n + p - 1) / p * p := by
      have hd := Nat.div_add_mod (n + p - 1) p
      have hm : (n + p - 1) % p < p := Nat.mod_lt _ hp
      rw [mul_comm]
      omega
    exact_mod_cast h3

/-- The filtered length never exceeds `totalPages * pageSize`. -/
theorem le_totalPages_mul (n p : Nat) (hp : 0 < p) :
    n ≤ totalPages n p * p := by
  have h3 : n ≤ (n + p - 1) / p * p := by
    have hd := Nat.div_add_mod (n + p - 1) p
    have hm : (n + p - 1) % p < p := Nat.mod_lt _ hp
    rw [mul_comm]
    omega
  calc n ≤ (n + p - 1) / p * p := h3
    _ ≤ max 1 ((n + p - 1) / p) * p :=
        Nat.mul_le_mul_right _ (le_max_right _ _)

/-- Concatenating the first `k` fixed-size chunks of a list yields its
first `k * p` elements. -/
theorem pageChunks_flatten (xs : List Task) (p : Nat) (k : Nat) :
    ((List.range k).map (fun i => (xs.drop (i * p)).take p)).flatten
      = xs.take (k * p) := by
  induction k with
  | zero => simp
  | succ k ih =>
      rw [List.range_succ, List.map_append, List.flatten_append]
      simp only [List.map_cons, List.map_nil, List.flatten_cons,
        List.flatten_nil, List.append_nil]
      rw [ih, Nat.succ_mul, List.take_add]

/-- C3: for a filtered sequence of length `N` and positive page size `P`,
`totalPages = ⌈N/P⌉` with a floor of 1; concatenating the slices of pages
`1 .. totalPages` in order reconstructs the sequence exactly; and any
page beyond `totalPages` yields the empty slice. -/
theorem paginator_C3 (xs : List Task) (pageSize : Nat) (hp : 0 < pageSize) :
    totalPages xs.length pageSize
        = max 1 ⌈(xs.length : ℚ) / (pageSize : ℚ)⌉₊
    ∧ ((List.range (totalPages xs.length pageSize)).map
          (fun i => pageSlice pageSize (i + 1) xs)).flatten = xs
    ∧ ∀ page, totalPages xs.length pageSize < page →
        pageSlice pageSize page xs = [] := by
  refine ⟨by rw [totalPages, ceilDiv_eq_natCeil _ _ hp], ?_, ?_⟩
  · simp only [pageSlice, Nat.add_sub_cancel]
    rw [pageChunks_flatten]
    exact List.take_of_length_le (le_totalPages_mul _ _ hp)
  · intro page hpage
    have h1 : totalPages xs.length pageSize ≤ page - 1 := by omega
    have h2 : xs.length ≤ (page - 1) * pageSize :=
      le_trans (le_totalPages_mul _ _ hp) (Nat.mul_le_mul_right _ h1)
    rw [pageSlice, List.drop_eq_nil_iff.mpr h2, List.take_nil]

/-- Witness for C3 with the specification's example shape: page size 8 on
a 17-element list. -/
theorem paginator_C3_witness :
    0 < 8
    ∧ (totalPages (List.replicate 17
            ({ id := 0, title := "t", status := "todo", priority := "low",
               due_date := none, created_at := none } : Task)).length 8
          = max 1 ⌈((List.replicate 17
              ({ id := 0, title := "t", status := "todo", priority := "low",
                 due_date := none, created_at := none } : Task)).length : ℚ) / (8 : ℚ)⌉₊
      ∧ ((List.range (totalPages (List.replicate 17
              ({ id := 0, title := "t", status := "todo", priority := "low",
                 due_date := none, created_at := none } : Task)).length 8)).map
            (fun i => pageSlice 8 (i + 1) (List.replicate 17
              ({ id := 0, title := "t", status := "todo", priority := "low",
                 due_date := none, created_at := none } : Task)))).flatten
          = List.replicate 17
              ({ id := 0, title := "t", status := "todo", priority := "low",
                 due_date := none, created_at := none } : Task)
      ∧ ∀ page, totalPages (List.replicate 17
            ({ id := 0, title := "t", status := "todo", priority := "low",
               due_date := none, created_at := none } : Task)).length 8 < page →
          pageSlice 8 page (List.replicate 17
            ({ id := 0, title := "t", status := "todo", priority := "low",
               due_date := none, created_at := none } : Task)) = []) :=
  ⟨by decide,
   paginator_C3 (List.replicate 17
     { id := 0, title := "t", status := "todo", priority := "low",
       due_date := none, created_at := none }) 8 (by decide)⟩

/-! ## Tab switching in the paginated variant (spec §4.2/§8; the
paginated frontend variant is not among the provided sources, so the
handler is modelled from the specification's description) -/

/-- The view state of the paginated variant's task list: the active tab
and the 1-indexed pagination cursor. -/
structure PagedViewState where
  activeTab : String
  currentPage : Nat
deriving DecidableEq, Repr

/-- Modelled from the spec: the tab-switch handler of the paginated
variant — "Switching the active tab always resets the current page to 1";
it sets the clicked tab as active and resets the pagination cursor. -/
def switchTab (s : PagedViewState) (tab : String) : PagedViewState :=
  { s with activeTab := tab, currentPage := 1 }

/-- C7: after any tab switch from any state the pagination cursor is on
page 1, and the clicked tab is the active one. -/
theorem tabSwitchResetsPage_C7 (s : PagedViewState) (tab : String) :
    (switchTab s tab).currentPage = 1 ∧ (switchTab s tab).activeTab = tab :=
  ⟨rfl, rfl⟩

end Todo
